import Mathlib

/-!
# Verification of the greenlight request-lifecycle core

A shallow embedding, in Lean 4, of the configuration loading, database pool
setup and process lifecycle found in the repository's `main` packages
(`src/cmd/api/main.go`, `src/unnamed/part_001`, `src/unnamed/part_002`),
together with models of the components the specification describes whose
implementation files are not part of the source snapshot (the per-client
token-bucket rate limiter, the identity resolver and the capability gate,
modelled from the specification text, §4.1-§4.3).

Conventions:
- Go `float64` values are embedded as `ℚ` (the computations at stake are
  exact: additions, multiplications, `min` and comparisons on small values).
- Go `(value, error)` pairs are embedded as `Except`/`Option` pairs.
- External collaborators (`database/sql`, `time.ParseDuration`, `strconv`,
  `godotenv`, the HTTP listener) are parameters of a "world" record: the
  theorems quantify over every behaviour of those collaborators.
- `os.Getenv` semantics: an environment is a total function `String → String`
  returning `""` for an unset variable, exactly as `os.Getenv` does.
-/

namespace Greenlight

/-! ## Configuration data model (the `config` struct of src/unnamed/part_002;
src/unnamed/part_001 declares the same `port`/`env`/`db`/`limiter` fields
without `smtp`/`cors`; src/cmd/api/main.go declares only `port`/`env`/`db`). -/

/-- The anonymous `db` sub-struct of the Go `config` type. -/
structure DBConfig where
  url : String
  maxOpenConns : Int
  maxIdleConns : Int
  maxIdleTime : String
deriving DecidableEq

/-- The anonymous `limiter` sub-struct of the Go `config` type:
`rps float64`, `burst int`, `enabled bool`. -/
structure LimiterConfig where
  rps : ℚ
  burst : Int
  enabled : Bool
deriving DecidableEq

/-- The anonymous `smtp` sub-struct of the Go `config` type. -/
structure SMTPConfig where
  host : String
  port : Int
  username : String
  password : String
  sender : String
deriving DecidableEq

/-- The anonymous `cors` sub-struct of the Go `config` type. -/
structure CORSConfig where
  trustedOrigins : List String
deriving DecidableEq

/-- The `config` struct declared in src/unnamed/part_002 lines 27-51. -/
structure config where
  port : Int
  env : String
  db : DBConfig
  limiter : LimiterConfig
  smtp : SMTPConfig
  cors : CORSConfig
deriving DecidableEq

/-- The dotted field paths of the `config` struct declared in the source
(src/unnamed/part_002 lines 27-51), one entry per leaf field.  This is the
complete configuration surface the program's config type carries. -/
def configSettings : List String :=
  ["port", "env",
   "db.url", "db.maxOpenConns", "db.maxIdleConns", "db.maxIdleTime",
   "limiter.rps", "limiter.burst", "limiter.enabled",
   "smtp.host", "smtp.port", "smtp.username", "smtp.password", "smtp.sender",
   "cors.trustedOrigins"]

/-- The configuration surface that the specification (§6) says the core
recognizes.  The spec writes the three limiter settings as `rateLimiter.*`;
they correspond to the source's `limiter` sub-struct, so they are listed here
under the source's field paths.  The three duration settings have no
corresponding field in any version of the source's config struct and are kept
under the spec's names. -/
def specConfigSurface : List String :=
  ["limiter.enabled", "limiter.rps", "limiter.burst",
   "shutdown.gracePeriod", "limiter.idleThreshold", "limiter.sweepInterval"]

/-! ## ClientLimiter (modelled from the spec §3, §4.1)

The rate-limiter middleware itself is not among the source files (only the
parsing of `LIMITER_RPS`/`LIMITER_BURST`/`LIMITER_ENABLED` in `main` is), so
the token bucket and `Allow` are modelled from the specification's words. -/

/-- Modelled from the spec: `TokenBucket: { capacity, refillRate, tokens
(float, 0..capacity), lastRefill (timestamp) }` (§3).  The rate-limiter
implementation is not under src/. -/
structure TokenBucket where
  capacity : ℚ
  refillRate : ℚ
  tokens : ℚ
  lastRefill : ℚ
deriving DecidableEq

/-- Modelled from the spec: "compute elapsed time since `lastRefill`; add
`elapsed * refillRate` tokens, capped at `capacity`" (§4.1). -/
def refill (b : TokenBucket) (now : ℚ) : TokenBucket :=
  { b with
    tokens := min b.capacity (b.tokens + (now - b.lastRefill) * b.refillRate)
    lastRefill := now }

/-- Modelled from the spec: "if `tokens >= 1`, subtract 1 and return
allowed=true, else return allowed=false" (§4.1). -/
def consume (b : TokenBucket) : Bool × TokenBucket :=
  if 1 ≤ b.tokens then (true, { b with tokens := b.tokens - 1 })
  else (false, b)

/-- One `Allow` call as it acts on the bucket of the given key: refill from
the elapsed time, then try to consume one token (§4.1). -/
def allowB (b : TokenBucket) (now : ℚ) : Bool × TokenBucket :=
  consume (refill b now)

/-- Modelled from the spec: a freshly created bucket for a limiter configured
with `requestsPerSecond`/`burst`: capacity and refill rate from the
configuration, starting full (the concrete scenario of §8 — five calls with
burst 4 allow exactly four — forces a new bucket to start with `burst`
tokens). -/
def newBucket (cfg : LimiterConfig) (now : ℚ) : TokenBucket :=
  { capacity := (cfg.burst : ℚ)
    refillRate := cfg.rps
    tokens := (cfg.burst : ℚ)
    lastRefill := now }

/-- Modelled from the spec: `LimiterEntry: { ClientKey → TokenBucket,
lastSeen (timestamp) }` (§3), as an association list keyed by client key. -/
def LimiterMap : Type := List (String × TokenBucket × ℚ)

/-- Look up the entry of a key in the limiter map. -/
def lookupEntry (key : String) : LimiterMap → Option (TokenBucket × ℚ)
  | [] => none
  | (k, e) :: rest => if k = key then some e else lookupEntry key rest

/-- Store the entry of a key in the limiter map (Go map assignment). -/
def setEntry (key : String) (e : TokenBucket × ℚ) : LimiterMap → LimiterMap
  | [] => [(key, e)]
  | (k, e') :: rest =>
      if k = key then (key, e) :: rest else (k, e') :: setEntry key e rest

/-- Modelled from the spec: `Allow(key) -> bool` (§4.1).  "On each call: look
up or create the bucket for `key`; compute elapsed time since `lastRefill`;
add `elapsed * refillRate` tokens, capped at `capacity`; if `tokens >= 1`,
subtract 1 and return allowed=true, else return allowed=false.  Update
`lastSeen`."  "When `enabled=false`, `Allow` always returns true and no
bucket is created."  `now` is the call's current time. -/
def Allow (cfg : LimiterConfig) (st : LimiterMap) (key : String) (now : ℚ) :
    Bool × LimiterMap :=
  if cfg.enabled then
    let b :=
      match lookupEntry key st with
      | some (b, _) => b
      | none => newBucket cfg now
    let (allowed, b') := allowB b now
    (allowed, setEntry key (b', now) st)
  else (true, st)

/-- Run a sequence of `Allow` calls, collecting the decisions.  Each call is
a pair of the client key and the call's time. -/
def allowCalls (cfg : LimiterConfig) (st : LimiterMap) :
    List (String × ℚ) → List Bool × LimiterMap
  | [] => ([], st)
  | (key, now) :: rest =>
      let (allowed, st') := Allow cfg st key now
      let (results, st'') := allowCalls cfg st' rest
      (allowed :: results, st'')

/-- The successive bucket states produced by a sequence of `Allow` calls on
one key's bucket, called at the given times. -/
def allowTrace (b : TokenBucket) : List ℚ → List TokenBucket
  | [] => []
  | t :: ts =>
      let b' := (allowB b t).2
      b' :: allowTrace b' ts

/-! ## IdentityResolver and CapabilityGate (modelled from the spec §3,
§4.2, §4.3)

The authentication middleware and the permission middleware are not among
the source files, so they are modelled from the specification's words. -/

/-- Modelled from the spec: `Identity: { id, activated (bool), permissionSet
(set of string codes) }` with "a sentinel 'anonymous' identity" (§3).  The Go
original distinguishes the sentinel by pointer identity; the `anonymous`
field models that sentinel marker. -/
structure Identity where
  id : Int
  anonymous : Bool
  activated : Bool
  permissionSet : List String
deriving DecidableEq

/-- The sentinel anonymous identity representing an unauthenticated caller. -/
def anonymousIdentity : Identity :=
  { id := 0, anonymous := true, activated := false, permissionSet := [] }

/-- Whether an identity is the anonymous sentinel. -/
def Identity.isAnonymous (u : Identity) : Bool := u.anonymous

/-- The recoverable error taxonomy of the capability gate and the identity
resolver (spec §7). -/
inductive AuthError where
  | authenticationRequiredError
  | accountNotActivatedError
  | permissionDeniedError
  | invalidCredentialError
deriving DecidableEq

/-- The outcome of running a (possibly wrapped) handler for a resolved
identity: either the gate rejected the request with one of the recoverable
errors, or the inner handler ran. -/
def GateResult : Type := Except AuthError Unit

/-- Modelled from the spec: `RequireAuthenticated` "fails with
`AuthenticationRequiredError` if the attached Identity is anonymous"
(§4.3). -/
def RequireAuthenticated (next : Identity → GateResult) (u : Identity) :
    GateResult :=
  if u.isAnonymous then Except.error AuthError.authenticationRequiredError
  else next u

/-- Modelled from the spec: `RequireActivated` "fails with
`AccountNotActivatedError` if Identity is non-anonymous but
`activated=false`"; authentication is checked first (§4.3). -/
def RequireActivated (next : Identity → GateResult) : Identity → GateResult :=
  RequireAuthenticated fun u =>
    if u.activated then next u
    else Except.error AuthError.accountNotActivatedError

/-- Modelled from the spec: `RequirePermission(code)` "fails with
`PermissionDeniedError` if `code` is not in Identity.permissionSet";
activation (and hence authentication) is checked first (§4.3). -/
def RequirePermission (code : String) (next : Identity → GateResult) :
    Identity → GateResult :=
  RequireActivated fun u =>
    if code ∈ u.permissionSet then next u
    else Except.error AuthError.permissionDeniedError

/-- Modelled from the spec: a stored credential record as seen through the
`CredentialStore` collaborator — the user it belongs to, its expiry
timestamp and its scope ("a non-expired, correctly-scoped token record",
§4.2, §6). -/
structure TokenRecord where
  userId : Int
  expiry : ℚ
  scope : String
deriving DecidableEq

/-- Modelled from the spec: the storage collaborators of the identity
resolver — `CredentialStore` keyed by token hash and `UserStore` mapping a
user id to its activation flag and permission codes (§6). -/
structure Store where
  credentials : List (String × TokenRecord)
  users : List (Int × Bool × List String)
deriving DecidableEq

/-- Association-list lookup with Go map semantics. -/
def lookupKey {α β : Type} [DecidableEq α] (key : α) :
    List (α × β) → Option β
  | [] => none
  | (k, v) :: rest => if k = key then some v else lookupKey key rest

/-- Modelled from the spec: `Resolve(credential) -> (Identity, error)`
(§4.2).  "(1) if no credential present, return the anonymous Identity, no
error; (2) hash/validate the credential, look up a non-expired,
correctly-scoped token record through a storage collaborator; (3) on no
match or expiry, fail with `InvalidCredentialError`; (4) on match, load the
associated user's activation flag and permission codes and return an
Identity snapshot."  The hash function is an external collaborator and is a
parameter.  The store is threaded through so that the guarantee "Resolve
never mutates stored state" is a statement about the returned store. -/
def Resolve (hashFn : String → String) (scope : String) (st : Store)
    (now : ℚ) (credential : Option String) :
    Except AuthError Identity × Store :=
  match credential with
  | none => (Except.ok anonymousIdentity, st)
  | some token =>
    match lookupKey (hashFn token) st.credentials with
    | none => (Except.error AuthError.invalidCredentialError, st)
    | some r =>
      if r.scope = scope then
        if r.expiry ≤ now then
          (Except.error AuthError.invalidCredentialError, st)
        else
          match lookupKey r.userId st.users with
          | none => (Except.error AuthError.invalidCredentialError, st)
          | some (act, perms) =>
              (Except.ok
                { id := r.userId, anonymous := false, activated := act
                  permissionSet := perms }, st)
      else (Except.error AuthError.invalidCredentialError, st)

/-! ## openDB (src/cmd/api/main.go lines 89-114; the same function appears
verbatim in src/unnamed/part_001 lines 146-171 and src/unnamed/part_002
lines 204-229) -/

/-- A `*sql.DB` connection pool: an opaque handle plus the pool settings
that `openDB` configures through `SetMaxOpenConns`, `SetMaxIdleConns` and
`SetConnMaxIdleTime`.  Durations are in nanoseconds, as Go's
`time.Duration`. -/
structure DB where
  handle : Nat
  maxOpenConns : Int
  maxIdleConns : Int
  connMaxIdleTime : ℚ
deriving DecidableEq

/-- Go `db.SetMaxOpenConns` (database/sql, external). -/
def DB.setMaxOpenConns (db : DB) (n : Int) : DB := { db with maxOpenConns := n }

/-- Go `db.SetMaxIdleConns` (database/sql, external). -/
def DB.setMaxIdleConns (db : DB) (n : Int) : DB := { db with maxIdleConns := n }

/-- Go `db.SetConnMaxIdleTime` (database/sql, external). -/
def DB.setConnMaxIdleTime (db : DB) (d : ℚ) : DB :=
  { db with connMaxIdleTime := d }

/-- The external collaborators `openDB` calls, as a world record: `sql.Open`,
`time.ParseDuration`, and `db.PingContext` under its 5-second context
deadline (`pingContext db = Except.error e` covers both a ping failure and
the deadline expiring, which `PingContext` reports as an error).  The
theorems quantify over every behaviour of this record. -/
structure SQLWorld where
  sqlOpen : String → Except String DB
  parseDuration : String → Except String ℚ
  pingContext : DB → Except String Unit

/-- `openDB` from src/cmd/api/main.go lines 89-114, embedded over the `db`
sub-struct of the config (the only part of `cfg` the Go function reads).
The Go return type `(*sql.DB, error)` is embedded as
`Option DB × Option String`: Go `(nil, err)` is `(none, some err)` and
`(db, nil)` is `(some db, none)`. -/
def openDB (w : SQLWorld) (cfg : DBConfig) : Option DB × Option String :=
  match w.sqlOpen cfg.url with
  | Except.error err => (none, some err)
  | Except.ok db =>
    let db := db.setMaxOpenConns cfg.maxOpenConns
    let db := db.setMaxIdleConns cfg.maxIdleConns
    match w.parseDuration cfg.maxIdleTime with
    | Except.error err => (none, some err)
    | Except.ok duration =>
      let db := db.setConnMaxIdleTime duration
      match w.pingContext db with
      | Except.error err => (none, some err)
      | Except.ok _ => (some db, none)

/-! ## The `main` functions -/

/-- Modelled from the spec: `jsonlog.Logger.PrintFatal` (internal/jsonlog,
not under src/) logs the error at FATAL level and terminates the process
with a non-zero exit status ("exit status ... non-zero ... on any fatal
startup error", §6); the status is 1. -/
def printFatal (_err : String) : Nat := 1

/-- net/http (external): `srv.ListenAndServe` always returns a non-nil
error — after a clean `Shutdown` it returns `http.ErrServerClosed`,
otherwise the listener failure. -/
def listenAndServeError (cleanClose : Bool) : String :=
  if cleanClose then "http: Server closed" else "listen: network error"

/-- The observable outcome of one run of a `main` function: the process exit
status, whether `openDB` (and hence a database connection attempt) was
reached, and whether the HTTP server was started. -/
structure MainResult where
  exitCode : Nat
  dbOpened : Bool
  serveStarted : Bool
deriving DecidableEq

/-- The external behaviours `main` of src/cmd/api/main.go depends on:
`godotenv.Load`, the process environment, the SQL collaborators, and
whether the listener's return was a clean close (`http.ErrServerClosed`)
or a listener failure. -/
structure World1 where
  dotenvErr : Bool
  env : String → String
  sql : SQLWorld
  cleanClose : Bool

/-- The `config` values `main` of src/cmd/api/main.go lines 46-53 ends up
with: the flag defaults (port 4000, env "development", 25/25/"15m") and the
DSN taken from the environment (command-line flag overrides are outside the
model; none of the claims involve them). -/
def cfgV1db (w : World1) : DBConfig :=
  { url := w.env "POSTGRESQL_URL", maxOpenConns := 25, maxIdleConns := 25
    maxIdleTime := "15m" }

/-- `main` from src/cmd/api/main.go lines 40-87: `godotenv.Load` with
`log.Fatal` (exit 1) on error; `openDB` with `PrintFatal` on error; then
`err = srv.ListenAndServe(); logger.PrintFatal(err, nil)` — the value
returned by `ListenAndServe` is passed to `PrintFatal` unconditionally, so
the run always ends in a fatal exit once the listener stops, clean close or
not. -/
def runMain1 (w : World1) : MainResult :=
  if w.dotenvErr then { exitCode := 1, dbOpened := false, serveStarted := false }
  else
    match openDB w.sql (cfgV1db w) with
    | (_, some err) =>
        { exitCode := printFatal err, dbOpened := true, serveStarted := false }
    | (_, none) =>
        { exitCode := printFatal (listenAndServeError w.cleanClose)
          dbOpened := true, serveStarted := true }

/-- Go `os.Getenv`'s "unset variable" result together with the membership
test `map[string]bool{"development": true, "staging": true, "production":
true}[environment]` of src/unnamed/part_002 lines 79-81 (identical in
src/unnamed/part_001 lines 63-65). -/
def validEnvironment (s : String) : Bool :=
  s = "development" || s = "staging" || s = "production"

/-- Word accumulator for `stringsFields`: walks the characters, gathering
the current word in reverse in `acc` and emitting it at each whitespace
run boundary. -/
def fieldsAux (acc : List Char) : List Char → List String
  | [] => if acc.isEmpty then [] else [String.mk acc.reverse]
  | c :: cs =>
    if c.isWhitespace then
      if acc.isEmpty then fieldsAux [] cs
      else String.mk acc.reverse :: fieldsAux [] cs
    else fieldsAux (c :: acc) cs

/-- Go `strings.Fields` (external): split around runs of whitespace,
dropping empty fields. -/
def stringsFields (s : String) : List String :=
  fieldsAux [] s.data

/-- The external behaviours `main` of src/unnamed/part_002 depends on:
`godotenv.Load`, the process environment, the `strconv` conversions
(external library functions, abstracted so the theorems hold for every
behaviour of theirs), the `-version` command-line flag, the SQL
collaborators, and the result of `app.serve()`.  `serveResult` is modelled
from the spec: `serve` (graceful shutdown, not under src/) returns no error
on a clean drain and an error on a forced/timeout drain or listener failure
(§4.6, §6). -/
structure World2 where
  dotenvErr : Bool
  env : String → String
  atoi : String → Except String Int
  parseFloat : String → Except String ℚ
  parseBool : String → Except String Bool
  displayVersion : Bool
  sql : SQLWorld
  serveResult : Option String

/-- The configuration-loading prefix of `main` from src/unnamed/part_002
lines 70-158: each environment variable is read and converted, and the
first failing check causes a fatal exit (embedded as `Except.error`); the
checks appear in exactly the source's order.  Note that the source passes
the literal `"development"` as the `ENVIRONEMNT` flag default (line 82), so
`cfg.env` is `"development"` regardless of the validated variable's
value. -/
def loadConfig (w : World2) : Except String config :=
  match w.atoi (w.env "PORT") with
  | Except.error e => Except.error e
  | Except.ok port =>
  if validEnvironment (w.env "ENVIRONEMNT") then
  if w.env "POSTGRESQL_URL" = "" then Except.error "POSTGRESQL_URL is not set"
  else
  match w.atoi (w.env "POSTGRESQL_MAX_OPEN_CONNS") with
  | Except.error e => Except.error e
  | Except.ok maxOpenConns =>
  match w.atoi (w.env "POSTGRESQL_MAX_IDLE_CONNS") with
  | Except.error e => Except.error e
  | Except.ok maxIdleConns =>
  if w.env "POSTGRESQL_MAX_IDLE_TIME" = "" then
    Except.error "invalid POSTGRESQL_MAX_IDLE_TIME"
  else
  match w.parseFloat (w.env "LIMITER_RPS") with
  | Except.error e => Except.error e
  | Except.ok rps =>
  match w.atoi (w.env "LIMITER_BURST") with
  | Except.error e => Except.error e
  | Except.ok burst =>
  match w.parseBool (w.env "LIMITER_ENABLED") with
  | Except.error e => Except.error e
  | Except.ok enabled =>
  if w.env "SMTP_HOST" = "" then Except.error "SMTP_HOST is not set"
  else
  match w.atoi (w.env "SMTP_PORT") with
  | Except.error e => Except.error e
  | Except.ok smtpPort =>
  if w.env "SMTP_USERNAME" = "" then Except.error "SMTP_USERNAME is not set"
  else
  if w.env "SMTP_PASSWORD" = "" then Except.error "SMTP_PASSWORD is not set"
  else
  if w.env "SMTP_SENDER" = "" then Except.error "SMTP_SENDER is not set"
  else
    Except.ok
      { port := port
        env := "development"
        db :=
          { url := w.env "POSTGRESQL_URL", maxOpenConns := maxOpenConns
            maxIdleConns := maxIdleConns
            maxIdleTime := w.env "POSTGRESQL_MAX_IDLE_TIME" }
        limiter := { rps := rps, burst := burst, enabled := enabled }
        smtp :=
          { host := w.env "SMTP_HOST", port := smtpPort
            username := w.env "SMTP_USERNAME"
            password := w.env "SMTP_PASSWORD", sender := w.env "SMTP_SENDER" }
        cors := { trustedOrigins := stringsFields (w.env "CORS_TRUSTED_ORIGINS") } }
  else Except.error "invalid environment"

/-- `main` from src/unnamed/part_002 lines 62-202: `godotenv.Load`, the
configuration checks (every failure is a `PrintFatal`, exit 1), then —
only after all of them — the `-version` branch (print and `os.Exit(0)`),
then `openDB` (`PrintFatal` on error) and `app.serve()` (`PrintFatal` on a
non-nil error; a nil error falls off the end of `main`, exit 0). -/
def runMain2 (w : World2) : MainResult :=
  if w.dotenvErr then { exitCode := 1, dbOpened := false, serveStarted := false }
  else
    match loadConfig w with
    | Except.error e =>
        { exitCode := printFatal e, dbOpened := false, serveStarted := false }
    | Except.ok cfg =>
      if w.displayVersion then
        { exitCode := 0, dbOpened := false, serveStarted := false }
      else
        match openDB w.sql cfg.db with
        | (_, some err) =>
            { exitCode := printFatal err, dbOpened := true
              serveStarted := false }
        | (_, none) =>
          match w.serveResult with
          | some err =>
              { exitCode := printFatal err, dbOpened := true
                serveStarted := true }
          | none =>
              { exitCode := 0, dbOpened := true, serveStarted := true }

/-! ## Concrete collaborator instances used by the witnesses -/

/-- A store holding one credential, expired by time 10, for user 7. -/
def storeEx : Store :=
  { credentials := [("tok", { userId := 7, expiry := 5, scope := "authentication" })]
    users := [(7, true, ["movies:read"])] }

/-- SQL collaborators on which every call succeeds: `sql.Open` yields a
fresh pool, `time.ParseDuration` yields 15 minutes in nanoseconds, the ping
succeeds. -/
def sqlOK : SQLWorld :=
  { sqlOpen := fun _ =>
      Except.ok
        { handle := 1, maxOpenConns := 0, maxIdleConns := 0
          connMaxIdleTime := 0 }
    parseDuration := fun _ => Except.ok 900000000000
    pingContext := fun _ => Except.ok () }

/-- The pool `openDB` returns on the successful collaborators. -/
def dbOK : DB :=
  { handle := 1, maxOpenConns := 25, maxIdleConns := 25
    connMaxIdleTime := 900000000000 }

/-- The `db` configuration of a successful run. -/
def dbcfgOK : DBConfig :=
  { url := "postgres://db", maxOpenConns := 25, maxIdleConns := 25
    maxIdleTime := "15m" }

/-- An environment holding a valid `ENVIRONEMNT` and non-empty values for
every other variable. -/
def envOK : String → String := fun key =>
  if key = "ENVIRONEMNT" then "development" else "x"

/-- A world for src/unnamed/part_002's `main` in which every startup step
succeeds and `serve` drains cleanly. -/
def world2OK : World2 :=
  { dotenvErr := false
    env := envOK
    atoi := fun _ => Except.ok 25
    parseFloat := fun _ => Except.ok 2
    parseBool := fun _ => Except.ok true
    displayVersion := false
    sql := sqlOK
    serveResult := none }

/-- The configuration `loadConfig` produces on `world2OK`. -/
def cfgOK : config :=
  { port := 25
    env := "development"
    db := { url := "x", maxOpenConns := 25, maxIdleConns := 25, maxIdleTime := "x" }
    limiter := { rps := 2, burst := 25, enabled := true }
    smtp := { host := "x", port := 25, username := "x", password := "x", sender := "x" }
    cors := { trustedOrigins := ["x"] } }

/-- A world for src/cmd/api/main.go's `main` in which startup succeeds and
the listener later closes cleanly (`ListenAndServe` returns
`http.ErrServerClosed`). -/
def world1Clean : World1 :=
  { dotenvErr := false, env := fun _ => "postgres://db", sql := sqlOK
    cleanClose := true }

/-! ## Theorems -/

/-- C1 counterexample: the claimed six-setting configuration surface is not
the surface the source's config type carries — `shutdown.gracePeriod` is
among the spec's six settings but is not a field of the config struct (nor
are the idle-threshold and sweep-interval durations), so it is false that
each of the six settings is read from configuration. -/
theorem config_surface_counterexample :
    "shutdown.gracePeriod" ∈ specConfigSurface ∧
    "shutdown.gracePeriod" ∉ configSettings ∧
    ¬ (∀ s ∈ specConfigSurface, s ∈ configSettings) := by decide

/-- C1 amended: the config type declared in the source carries the three
rate-limiter settings (`limiter.enabled`, `limiter.rps`, `limiter.burst`),
but no shutdown grace period, limiter idle threshold, or limiter sweep
interval field — those three durations are not part of the configuration
surface; the surface is also not exactly the spec's six settings, since the
config type carries further fields such as `db.url`. -/
theorem config_surface_amended :
    "limiter.enabled" ∈ configSettings ∧
    "limiter.rps" ∈ configSettings ∧
    "limiter.burst" ∈ configSettings ∧
    "shutdown.gracePeriod" ∉ configSettings ∧
    "limiter.idleThreshold" ∉ configSettings ∧
    "limiter.sweepInterval" ∉ configSettings ∧
    "db.url" ∈ configSettings ∧ "db.url" ∉ specConfigSurface := by decide

/-- C2: with the limiter configured at requestsPerSecond 2 and burst 4,
five `Allow` calls for the same key issued with zero elapsed time between
them return exactly [true, true, true, true, false]. -/
theorem limiter_burst_scenario :
    (allowCalls { rps := 2, burst := 4, enabled := true } []
      [("k", 0), ("k", 0), ("k", 0), ("k", 0), ("k", 0)]).1 =
    [true, true, true, true, false] := by
  have hA1 : allowB ⟨4, 2, 4, 0⟩ 0 = (true, ⟨4, 2, 3, 0⟩) := by
    simp only [allowB, refill, consume]; norm_num
  have hA2 : allowB ⟨4, 2, 3, 0⟩ 0 = (true, ⟨4, 2, 2, 0⟩) := by
    simp only [allowB, refill, consume]; norm_num
  have hA3 : allowB ⟨4, 2, 2, 0⟩ 0 = (true, ⟨4, 2, 1, 0⟩) := by
    simp only [allowB, refill, consume]; norm_num
  have hA4 : allowB ⟨4, 2, 1, 0⟩ 0 = (true, ⟨4, 2, 0, 0⟩) := by
    simp only [allowB, refill, consume]; norm_num
  have hA5 : allowB ⟨4, 2, 0, 0⟩ 0 = (false, ⟨4, 2, 0, 0⟩) := by
    simp only [allowB, refill, consume]; norm_num
  have hnew : newBucket { rps := 2, burst := 4, enabled := true } 0 =
      ⟨4, 2, 4, 0⟩ := by
    norm_num [newBucket]
  have hst1 : Allow { rps := 2, burst := 4, enabled := true } [] "k" 0 =
      (true, [("k", (⟨4, 2, 3, 0⟩ : TokenBucket), (0 : ℚ))]) := by
    simp only [Allow, lookupEntry, hnew, hA1, setEntry, ite_true]
  have hst2 : Allow { rps := 2, burst := 4, enabled := true }
      [("k", (⟨4, 2, 3, 0⟩ : TokenBucket), (0 : ℚ))] "k" 0 =
      (true, [("k", (⟨4, 2, 2, 0⟩ : TokenBucket), (0 : ℚ))]) := by
    simp only [Allow, lookupEntry, hA2, setEntry, ite_true]
  have hst3 : Allow { rps := 2, burst := 4, enabled := true }
      [("k", (⟨4, 2, 2, 0⟩ : TokenBucket), (0 : ℚ))] "k" 0 =
      (true, [("k", (⟨4, 2, 1, 0⟩ : TokenBucket), (0 : ℚ))]) := by
    simp only [Allow, lookupEntry, hA3, setEntry, ite_true]
  have hst4 : Allow { rps := 2, burst := 4, enabled := true }
      [("k", (⟨4, 2, 1, 0⟩ : TokenBucket), (0 : ℚ))] "k" 0 =
      (true, [("k", (⟨4, 2, 0, 0⟩ : TokenBucket), (0 : ℚ))]) := by
    simp only [Allow, lookupEntry, hA4, setEntry, ite_true]
  have hst5 : Allow { rps := 2, burst := 4, enabled := true }
      [("k", (⟨4, 2, 0, 0⟩ : TokenBucket), (0 : ℚ))] "k" 0 =
      (false, [("k", (⟨4, 2, 0, 0⟩ : TokenBucket), (0 : ℚ))]) := by
    simp only [Allow, lookupEntry, hA5, setEntry, ite_true]
  simp only [allowCalls, hst1, hst2, hst3, hst4, hst5]

/-- C4: for a request whose attached identity is the anonymous sentinel, a
handler wrapped in `RequirePermission code` surfaces
`AuthenticationRequiredError` — never `PermissionDeniedError` — for every
permission code and every inner handler; and for an authenticated but
non-activated identity the surfaced error is `AccountNotActivatedError`,
so each failure reports the earliest unmet precondition. -/
theorem requirePermission_anonymous (code : String)
    (next : Identity → GateResult) :
    (RequirePermission code next anonymousIdentity =
        Except.error AuthError.authenticationRequiredError ∧
      RequirePermission code next anonymousIdentity ≠
        Except.error AuthError.permissionDeniedError) ∧
    ∀ u : Identity, u.anonymous = false → u.activated = false →
      RequirePermission code next u =
        Except.error AuthError.accountNotActivatedError := by
  constructor
  · constructor
    · rfl
    · intro h
      exact AuthError.noConfusion (Except.error.inj h)
  · intro u h1 h2
    simp [RequirePermission, RequireActivated, RequireAuthenticated,
      Identity.isAnonymous, h1, h2]

/-- C4 witness: the gate applied to a concrete authenticated, non-activated
identity reports the activation failure. -/
theorem requirePermission_anonymous_witness :
    RequirePermission "movies:read" (fun _ => Except.ok ())
      { id := 7, anonymous := false, activated := false
        permissionSet := ["movies:read"] } =
      Except.error AuthError.accountNotActivatedError :=
  (requirePermission_anonymous "movies:read" (fun _ => Except.ok ())).2
    { id := 7, anonymous := false, activated := false
      permissionSet := ["movies:read"] } rfl rfl

/-- C6: when the limiter configuration has enabled set to false, every
`Allow` call returns true for every key, and the limiter's map is returned
unchanged — no bucket entry is created. -/
theorem Allow_disabled (cfg : LimiterConfig) (h : cfg.enabled = false)
    (st : LimiterMap) (key : String) (now : ℚ) :
    Allow cfg st key now = (true, st) := by
  simp [Allow, h]

/-- C6 witness: a disabled limiter allows a concrete call on the empty map
and leaves the map empty. -/
theorem Allow_disabled_witness :
    Allow { rps := 2, burst := 4, enabled := false } [] "k" 0 = (true, []) :=
  Allow_disabled { rps := 2, burst := 4, enabled := false } rfl [] "k" 0

/-- One `Allow` call keeps the bucket invariant: starting from a bucket with
`0 ≤ tokens ≤ capacity`, a non-negative refill rate and a call time not
before `lastRefill`, the bucket after the call again satisfies
`0 ≤ tokens ≤ capacity`, with capacity and refill rate unchanged and
`lastRefill` advanced to the call time. -/
theorem allowB_inv (b : TokenBucket) (now : ℚ) (hrate : 0 ≤ b.refillRate)
    (h0 : 0 ≤ b.tokens) (hcap : b.tokens ≤ b.capacity)
    (hnow : b.lastRefill ≤ now) :
    0 ≤ ((allowB b now).2).tokens ∧
    ((allowB b now).2).tokens ≤ ((allowB b now).2).capacity ∧
    ((allowB b now).2).capacity = b.capacity ∧
    ((allowB b now).2).refillRate = b.refillRate ∧
    ((allowB b now).2).lastRefill = now := by
  have hcap0 : 0 ≤ b.capacity := h0.trans hcap
  have helapsed : 0 ≤ (now - b.lastRefill) * b.refillRate :=
    mul_nonneg (by linarith) hrate
  have hmin0 : 0 ≤ min b.capacity (b.tokens + (now - b.lastRefill) * b.refillRate) :=
    le_min hcap0 (by linarith)
  have hmincap : min b.capacity (b.tokens + (now - b.lastRefill) * b.refillRate) ≤
      b.capacity := min_le_left _ _
  simp only [allowB, refill, consume]
  split_ifs with h1
  · refine ⟨?_, ?_, rfl, rfl, rfl⟩
    · dsimp only
      linarith
    · dsimp only
      linarith
  · exact ⟨hmin0, hmincap, rfl, rfl, rfl⟩

/-- C3: for every token bucket satisfying the bucket invariant and every
sequence of `Allow` calls on its key at non-decreasing times, after each
call the bucket's token count is at most its capacity and is never
negative — the refill is capped at the capacity, and one token is
subtracted only when at least one token is available. -/
theorem tokens_bounded (b : TokenBucket) (times : List ℚ)
    (hrate : 0 ≤ b.refillRate) (h0 : 0 ≤ b.tokens)
    (hcap : b.tokens ≤ b.capacity)
    (htimes : List.Chain (fun s t => s ≤ t) b.lastRefill times) :
    ∀ b' ∈ allowTrace b times, 0 ≤ b'.tokens ∧ b'.tokens ≤ b'.capacity := by
  induction times generalizing b with
  | nil =>
    intro b' hb'
    simp [allowTrace] at hb'
  | cons t ts ih =>
    cases htimes with
    | cons hle hchain =>
      intro b' hb'
      obtain ⟨hi0, hi1, hicap, hirate, hilast⟩ := allowB_inv b t hrate h0 hcap hle
      simp only [allowTrace, List.mem_cons] at hb'
      rcases hb' with hb' | hb'
      · rw [hb']
        exact ⟨hi0, hi1⟩
      · exact ih (allowB b t).2 (by rw [hirate]; exact hrate) hi0 hi1
          (by rw [hilast]; exact hchain) b' hb'

/-- C3 witness: the invariant holds for the bucket obtained after one call
at time 0 on a fresh rps 2, burst 4 bucket. -/
theorem tokens_bounded_witness :
    0 ≤ ((allowB (newBucket { rps := 2, burst := 4, enabled := true } 0) 0).2).tokens ∧
    ((allowB (newBucket { rps := 2, burst := 4, enabled := true } 0) 0).2).tokens ≤
      ((allowB (newBucket { rps := 2, burst := 4, enabled := true } 0) 0).2).capacity :=
  tokens_bounded (newBucket { rps := 2, burst := 4, enabled := true } 0) [0]
    (by norm_num [newBucket]) (by norm_num [newBucket]) (by norm_num [newBucket])
    (List.Chain.cons (by norm_num [newBucket]) List.Chain.nil)
    ((allowB (newBucket { rps := 2, burst := 4, enabled := true } 0) 0).2)
    (by simp [allowTrace])

/-- C5: `Resolve` of a missing credential returns the anonymous identity
with no error; `Resolve` of an expired credential (one whose stored record's
expiry is not after the current time) fails with `InvalidCredentialError`;
and `Resolve` never mutates the stored state, whatever the credential. -/
theorem Resolve_contract (hashFn : String → String) (scope : String)
    (st : Store) (now : ℚ) (token : String) (r : TokenRecord)
    (hfound : lookupKey (hashFn token) st.credentials = some r)
    (hexpired : r.expiry ≤ now) :
    Resolve hashFn scope st now none = (Except.ok anonymousIdentity, st) ∧
    (Resolve hashFn scope st now (some token)).1 =
      Except.error AuthError.invalidCredentialError ∧
    ∀ credential, (Resolve hashFn scope st now credential).2 = st := by
  refine ⟨rfl, ?_, ?_⟩
  · simp only [Resolve, hfound]
    by_cases hs : r.scope = scope
    · simp [hs, hexpired]
    · simp [hs]
  · intro credential
    cases credential with
    | none => rfl
    | some t =>
      simp only [Resolve]
      cases hl : lookupKey (hashFn t) st.credentials with
      | none => rfl
      | some rec2 =>
        by_cases hs : rec2.scope = scope
        · by_cases he : rec2.expiry ≤ now
          · simp [hs, he]
          · simp only [hs, if_true, he, if_false, ite_true, ite_false]
            cases hu : lookupKey rec2.userId st.users with
            | none => simp [he]
            | some p =>
              obtain ⟨act, perms⟩ := p
              simp [he]
        · simp [hs]

/-- C5 witness: on a concrete store holding one credential for user 7 that
expired at time 5, resolving it at time 10 fails with
`InvalidCredentialError`. -/
theorem Resolve_contract_witness :
    (Resolve (fun s => s) "authentication" storeEx 10 (some "tok")).1 =
      Except.error AuthError.invalidCredentialError :=
  (Resolve_contract (fun s => s) "authentication" storeEx 10 "tok"
    { userId := 7, expiry := 5, scope := "authentication" }
    (by simp [storeEx, lookupKey]) (by norm_num)).2.1

/-- C7: `openDB` returns a non-nil pool exactly when it returns a nil error;
a returned pool has been configured with the configured max open
connections, max idle connections, and the idle-connection lifetime parsed
from the configured string, and the initial ping (under its 5-second
deadline) succeeded on it; and whenever the configured idle-time string does
not parse as a duration, `openDB` returns no pool and a non-nil error. -/
theorem openDB_contract (w : SQLWorld) (cfg : DBConfig) :
    ((openDB w cfg).2 = none ↔ ∃ db, (openDB w cfg).1 = some db) ∧
    (∀ db, (openDB w cfg).1 = some db →
      db.maxOpenConns = cfg.maxOpenConns ∧
      db.maxIdleConns = cfg.maxIdleConns ∧
      w.parseDuration cfg.maxIdleTime = Except.ok db.connMaxIdleTime ∧
      w.pingContext db = Except.ok ()) ∧
    (∀ e, w.parseDuration cfg.maxIdleTime = Except.error e →
      (openDB w cfg).1 = none ∧ (openDB w cfg).2 ≠ none) := by
  unfold openDB
  cases ho : w.sqlOpen cfg.url with
  | error err => exact ⟨by simp, by simp, fun e hp => by simp⟩
  | ok db0 =>
    cases hp : w.parseDuration cfg.maxIdleTime with
    | error err => exact ⟨by simp, by simp, fun e hp2 => by simp⟩
    | ok d =>
      cases hping : w.pingContext
          (((db0.setMaxOpenConns cfg.maxOpenConns).setMaxIdleConns
            cfg.maxIdleConns).setConnMaxIdleTime d) with
      | error err =>
        refine ⟨by simp [hping], by simp [hping], fun e hp2 => ?_⟩
        exact absurd hp2 (by simp)
      | ok u =>
        refine ⟨by simp [hping], fun db hdb => ?_, fun e hp2 => ?_⟩
        · simp only [hping, Option.some.injEq] at hdb
          subst hdb
          refine ⟨rfl, rfl, rfl, ?_⟩
          cases u
          rw [hping]
        · exact absurd hp2 (by simp)

/-- C7 witness: on collaborators where opening, parsing "15m" and pinging
succeed, the returned pool carries the configured limits and lifetime and
was successfully pinged. -/
theorem openDB_contract_witness :
    dbOK.maxOpenConns = dbcfgOK.maxOpenConns ∧
    dbOK.maxIdleConns = dbcfgOK.maxIdleConns ∧
    sqlOK.parseDuration dbcfgOK.maxIdleTime = Except.ok dbOK.connMaxIdleTime ∧
    sqlOK.pingContext dbOK = Except.ok () :=
  (openDB_contract sqlOK dbcfgOK).2.1 dbOK rfl

/-- C8 counterexample: in src/cmd/api/main.go, a run whose startup succeeds
and whose listener then closes cleanly (`ListenAndServe` returns
`http.ErrServerClosed`) still exits with status 1, not 0, because the value
returned by `ListenAndServe` is unconditionally passed to `PrintFatal`. -/
theorem clean_close_exit_counterexample :
    world1Clean.cleanClose = true ∧
    (runMain1 world1Clean).exitCode = 1 ∧
    (runMain1 world1Clean).exitCode ≠ 0 :=
  ⟨rfl, rfl, Nat.one_ne_zero⟩

/-- C8 amended: the exit status is non-zero (1, via `PrintFatal`) on every
fatal startup error — dotenv load failure, any configuration-check failure,
any `openDB` failure — and on a drain that `serve` reports as failed; a
clean drain exits with status 0 only in the `serve()`-based main of
src/unnamed/part_002; in src/cmd/api/main.go the value returned by
`ListenAndServe` — `http.ErrServerClosed` included — is unconditionally
passed to `PrintFatal`, so that program exits 1 whenever its listener
stops, clean close or not. -/
theorem exit_codes_amended (w1 : World1) (w2 : World2) :
    (runMain1 w1).exitCode = 1 ∧
    (w2.dotenvErr = true → (runMain2 w2).exitCode = 1) ∧
    (∀ e, loadConfig w2 = Except.error e → (runMain2 w2).exitCode = 1) ∧
    (∀ cfg, w2.dotenvErr = false → loadConfig w2 = Except.ok cfg →
      w2.displayVersion = false → (openDB w2.sql cfg.db).2 ≠ none →
      (runMain2 w2).exitCode = 1) ∧
    (∀ cfg e2, w2.dotenvErr = false → loadConfig w2 = Except.ok cfg →
      w2.displayVersion = false → (openDB w2.sql cfg.db).2 = none →
      w2.serveResult = some e2 → (runMain2 w2).exitCode = 1) ∧
    (∀ cfg, w2.dotenvErr = false → loadConfig w2 = Except.ok cfg →
      w2.displayVersion = false → (openDB w2.sql cfg.db).2 = none →
      w2.serveResult = none → (runMain2 w2).exitCode = 0) := by
  refine ⟨?_, ?_, ?_, ?_, ?_, ?_⟩
  · unfold runMain1
    cases hd : w1.dotenvErr with
    | true => simp
    | false =>
      rcases ho : openDB w1.sql (cfgV1db w1) with ⟨a, b⟩
      cases b <;> simp [printFatal]
  · intro hd
    unfold runMain2
    simp [hd]
  · intro e he
    unfold runMain2
    cases hd : w2.dotenvErr with
    | true => simp
    | false => simp [he, printFatal]
  · intro cfg hd hl hv hdb
    unfold runMain2
    rcases ho : openDB w2.sql cfg.db with ⟨a, b⟩
    rw [ho] at hdb
    cases b with
    | none => exact absurd rfl hdb
    | some e => simp [hd, hl, hv, ho, printFatal]
  · intro cfg e2 hd hl hv hdb hs
    unfold runMain2
    rcases ho : openDB w2.sql cfg.db with ⟨a, b⟩
    rw [ho] at hdb
    subst hdb
    simp [hd, hl, hv, ho, hs, printFatal]
  · intro cfg hd hl hv hdb hs
    unfold runMain2
    rcases ho : openDB w2.sql cfg.db with ⟨a, b⟩
    rw [ho] at hdb
    subst hdb
    simp [hd, hl, hv, ho, hs]

/-- C8 witness: on concrete worlds, src/cmd/api/main.go's main exits 1 even
though its listener closed cleanly, while the serve-based main of
src/unnamed/part_002 exits 0 on a clean drain. -/
theorem exit_codes_amended_witness :
    (runMain1 world1Clean).exitCode = 1 ∧ (runMain2 world2OK).exitCode = 0 :=
  ⟨(exit_codes_amended world1Clean world2OK).1,
   (exit_codes_amended world1Clean world2OK).2.2.2.2.2 cfgOK rfl (by rfl)
     rfl (by rfl) rfl⟩

/-- The configuration-loading prefix of src/unnamed/part_002's main fails
whenever the `ENVIRONEMNT` membership check fails, whatever the earlier
PORT conversion did. -/
theorem loadConfig_invalid_env (w : World2)
    (h : validEnvironment (w.env "ENVIRONEMNT") = false) :
    ∃ e, loadConfig w = Except.error e := by
  unfold loadConfig
  cases hp : w.atoi (w.env "PORT") with
  | error e => exact ⟨e, rfl⟩
  | ok port => exact ⟨"invalid environment", by simp [h]⟩

/-- C9: startup of src/unnamed/part_002 (the check is identical in
src/unnamed/part_001) terminates fatally — exit status 1, database never
opened, server never started — unless the environment variable spelled
`ENVIRONEMNT` is one of development, staging or production; in particular,
when that variable is unset (`os.Getenv` returns the empty string) the
process exits with an error instead of falling back to the "development"
default declared for the flag. -/
theorem environment_required (w : World2) :
    (validEnvironment (w.env "ENVIRONEMNT") = false →
      runMain2 w =
        { exitCode := 1, dbOpened := false, serveStarted := false }) ∧
    (w.env "ENVIRONEMNT" = "" →
      runMain2 w =
        { exitCode := 1, dbOpened := false, serveStarted := false }) := by
  have key : validEnvironment (w.env "ENVIRONEMNT") = false →
      runMain2 w =
        { exitCode := 1, dbOpened := false, serveStarted := false } := by
    intro h
    obtain ⟨e, he⟩ := loadConfig_invalid_env w h
    unfold runMain2
    cases hd : w.dotenvErr with
    | true => simp
    | false => simp [he, printFatal]
  refine ⟨key, fun h => key ?_⟩
  rw [h]
  rfl

/-- C9 witness: with every environment variable unset, the run exits with
status 1 before the database is opened. -/
theorem environment_required_witness :
    runMain2 { world2OK with env := fun _ => "" } =
      { exitCode := 1, dbOpened := false, serveStarted := false } :=
  (environment_required { world2OK with env := fun _ => "" }).2 rfl

/-- C10 counterexample: a run with the -version flag set but the
environment empty exits with status 1 (at the `ENVIRONEMNT` check, which
runs before the flag is consulted), not 0 — setting -version does not by
itself make the process print the version and exit 0. -/
theorem version_flag_counterexample :
    ({ world2OK with displayVersion := true, env := fun _ => "" } :
        World2).displayVersion = true ∧
    (runMain2
      { world2OK with displayVersion := true, env := fun _ => "" }).exitCode
        = 1 ∧
    (runMain2
      { world2OK with displayVersion := true, env := fun _ => "" }).exitCode
        ≠ 0 :=
  ⟨rfl, rfl, Nat.one_ne_zero⟩

/-- C10 amended: whenever the -version flag is set, no database connection
is ever attempted and no server is started; and when additionally the
environment-derived configuration checks all pass (those checks run before
the flag is consulted), the process exits with status 0 before opening the
database connection pool. -/
theorem version_flag_amended (w : World2) (hv : w.displayVersion = true) :
    ((runMain2 w).dbOpened = false ∧ (runMain2 w).serveStarted = false) ∧
    (w.dotenvErr = false → ∀ cfg, loadConfig w = Except.ok cfg →
      runMain2 w =
        { exitCode := 0, dbOpened := false, serveStarted := false }) := by
  constructor
  · unfold runMain2
    cases hd : w.dotenvErr with
    | true => simp
    | false =>
      cases hl : loadConfig w with
      | error e => simp [printFatal]
      | ok cfg => simp [hv]
  · intro hd cfg hl
    unfold runMain2
    simp [hd, hl, hv]

/-- C10 witness: with the -version flag set and a fully valid environment,
the run exits with status 0 and the database is never opened. -/
theorem version_flag_amended_witness :
    runMain2 { world2OK with displayVersion := true } =
      { exitCode := 0, dbOpened := false, serveStarted := false } :=
  (version_flag_amended { world2OK with displayVersion := true } rfl).2
    rfl cfgOK (by rfl)

end Greenlight
